import Mathlib

/-
  Verification of the Render-Terrain rendering core against its design
  specification.

  Source layout: `src/Render Terrain/Graphics.h` declares the Direct3D 12
  context class `graphics::Graphics` (constants, per-frame arrays, the
  per-frame API) but the translation unit Graphics.cpp with the method
  bodies is not part of src/; those operations are modelled from the spec
  (each such definition carries a `Modelled from the spec:` doc comment).
  `src/Render Terrain/Light.h` is complete and is embedded directly.
-/

namespace RenderTerrain

/-- Constant from Graphics.h line 44: `static const float SCREEN_DEPTH = 1000.0f;`
(1000.0f is exactly representable, so ℚ models it faithfully). -/
def SCREEN_DEPTH : ℚ := 1000

/-- Constant from Graphics.h line 48: `static const int FRAME_BUFFER_COUNT = 3;`
(triple buffering). -/
def FRAME_BUFFER_COUNT : Nat := 3

/-- Numeric value of the Direct3D enumerator `D3D_FEATURE_LEVEL_11_0` (0xb000). -/
def D3D_FEATURE_LEVEL_11_0 : Nat := 0xb000

/-- Constant from Graphics.h line 49: `static const D3D_FEATURE_LEVEL FEATURE_LEVEL
= D3D_FEATURE_LEVEL_11_0;` — the minimum feature level requested. -/
def FEATURE_LEVEL : Nat := D3D_FEATURE_LEVEL_11_0

/-- Enum from Graphics.h line 51. -/
inductive ShaderType
  | PIXEL_SHADER
  | VERTEX_SHADER
  | GEOMETRY_SHADER
  | HULL_SHADER
  | DOMAIN_SHADER
deriving DecidableEq, Repr

/-- Synchronization-relevant state of a `graphics::Graphics` object
(Graphics.h lines 106-119): the per-slot fence values `maFenceValues`, the
per-slot GPU completed fence value (what `maFences[i]->GetCompletedValue()`
would report), the mirrored buffer index `mBufferIndex`, and the descriptor
bookkeeping used when binding back buffers (`mRTVDescSize` and the heap
handles of `mpRTVHeap` / `mpDSVHeap`). -/
structure Graphics where
  maFenceValues : Fin FRAME_BUFFER_COUNT → Nat
  gpuCompleted : Fin FRAME_BUFFER_COUNT → Nat
  mBufferIndex : Nat
  rtvHeapStart : Nat
  mRTVDescSize : Nat
  dsvHandle : Nat

/-- The frame slot selected by the mirrored buffer index. -/
def slotOf (s : Graphics) : Fin FRAME_BUFFER_COUNT :=
  ⟨s.mBufferIndex % FRAME_BUFFER_COUNT, Nat.mod_lt _ (by decide)⟩

/-- Modelled from the spec: `Graphics::Render` (Graphics.cpp is not in src/).
Per spec sections 4.2/4.3/4.4 and 6, Render closes and submits the command
list, signals the current slot's fence with a new, incremented fence value
("the command queue is signaled with a new, incremented fence value for slot
i immediately after submission"), and presents, which "advances the mirrored
buffer index modulo N". -/
def Render (s : Graphics) : Graphics :=
  { s with
    maFenceValues :=
      Function.update s.maFenceValues (slotOf s) (s.maFenceValues (slotOf s) + 1),
    mBufferIndex := (s.mBufferIndex + 1) % FRAME_BUFFER_COUNT }

/-- The fence value Render signals for the submitted slot. -/
def signalledByRender (s : Graphics) : Nat :=
  s.maFenceValues (slotOf s) + 1

/-- Modelled from the spec: `Graphics::NextFrame` (Graphics.cpp is not in
src/). Per spec section 4.4, Next frame "waits, if necessary, for the
incoming slot's fence to reach its last signaled value". The blocking wait
is modelled functionally: it returns only in a state where the slot's
completed value has reached the last signalled value, so the updated
`gpuCompleted` records the wait having finished. -/
def NextFrame (s : Graphics) : Graphics :=
  if s.gpuCompleted (slotOf s) < s.maFenceValues (slotOf s) then
    { s with
      gpuCompleted :=
        Function.update s.gpuCompleted (slotOf s) (s.maFenceValues (slotOf s)) }
  else s

/-- Record of the allocator reset performed by ResetPipeline: which slot's
`maCmdAllocators` entry was reset, and the slot's completed and last
signalled fence values at the moment of the reset. -/
structure ResetEvent where
  slot : Fin FRAME_BUFFER_COUNT
  completedAtReset : Nat
  signalledAtReset : Nat
deriving DecidableEq, Repr

/-- Modelled from the spec: `Graphics::ResetPipeline` (Graphics.cpp is not in
src/). Per spec section 4.2 it "resets the current slot's allocator and the
shared command list against it" and "must only run after FrameSynchronizer
confirms the slot is free", i.e. it first runs NextFrame's fence wait and
only then resets the allocator. The returned ResetEvent captures the state
of the slot at the instant its allocator is reset. -/
def ResetPipeline (s : Graphics) : Graphics × ResetEvent :=
  let s' := NextFrame s
  (s', ⟨slotOf s', s'.gpuCompleted (slotOf s'), s'.maFenceValues (slotOf s')⟩)

/-- Modelled from the spec: `Graphics::ClearAllFrames` (Graphics.cpp is not
in src/). Per spec section 4.4 Drain: "for every slot, signal-and-wait so
that no GPU work remains outstanding before resources are released". Each
slot's fence value is incremented and signalled, and the call returns only
once the GPU completed value of every slot has reached its signalled value
(the blocking wait modelled functionally as in NextFrame). -/
def ClearAllFrames (s : Graphics) : Graphics :=
  { s with
    maFenceValues := fun j => s.maFenceValues j + 1,
    gpuCompleted := fun j => max (s.gpuCompleted j) (s.maFenceValues j + 1) }

/-- Operations that touch the synchronization state of the context over its
lifetime: Render (submit + signal + present), ResetPipeline (fence wait +
allocator reset), ClearAllFrames (shutdown drain), and spontaneous GPU
progress raising a slot's completed value. -/
inductive GfxOp
  | render
  | resetPipeline
  | clearAllFrames
  | gpuProgress (i : Fin FRAME_BUFFER_COUNT) (v : Nat)

/-- Apply one operation to the context state. -/
def applyOp : GfxOp → Graphics → Graphics
  | .render, s => Render s
  | .resetPipeline, s => (ResetPipeline s).1
  | .clearAllFrames, s => ClearAllFrames s
  | .gpuProgress i v, s =>
      { s with gpuCompleted := Function.update s.gpuCompleted i (max (s.gpuCompleted i) v) }

/-- Run a sequence of operations. -/
def runOps : List GfxOp → Graphics → Graphics
  | [], s => s
  | op :: l, s => runOps l (applyOp op s)

/-- Fence values signalled to the command queue by one operation, as
(slot, value) pairs in signal order. Render signals the submitted slot's
new incremented value; the drain signals every slot's new value; the other
operations signal nothing. -/
def signalsOp : GfxOp → Graphics → List (Fin FRAME_BUFFER_COUNT × Nat)
  | .render, s => [(slotOf s, s.maFenceValues (slotOf s) + 1)]
  | .resetPipeline, _ => []
  | .clearAllFrames, s =>
      [(⟨0, by decide⟩, s.maFenceValues ⟨0, by decide⟩ + 1),
       (⟨1, by decide⟩, s.maFenceValues ⟨1, by decide⟩ + 1),
       (⟨2, by decide⟩, s.maFenceValues ⟨2, by decide⟩ + 1)]
  | .gpuProgress _ _, _ => []

/-- All fence values signalled over a run, in order. -/
def signalsRun : List GfxOp → Graphics → List (Fin FRAME_BUFFER_COUNT × Nat)
  | [], _ => []
  | op :: l, s => signalsOp op s ++ signalsRun l (applyOp op s)

/-- The subsequence of fence values signalled for slot i over a run. -/
def slotSignals (i : Fin FRAME_BUFFER_COUNT) (l : List GfxOp) (s : Graphics) : List Nat :=
  ((signalsRun l s).filter (fun p => decide (p.1 = i))).map Prod.snd

/-- Modelled from the spec: the synchronization state right after
construction (Graphics.cpp is not in src/) — fence values and completed
values start at zero and the mirrored buffer index starts at the swap
chain's first image, index 0. -/
def initialGraphics : Graphics :=
  { maFenceValues := fun _ => 0
    gpuCompleted := fun _ => 0
    mBufferIndex := 0
    rtvHeapStart := 0
    mRTVDescSize := 32
    dsvHandle := 1024 }

lemma resetPipeline_fence (s : Graphics) :
    (ResetPipeline s).1.maFenceValues = s.maFenceValues := by
  simp only [ResetPipeline, NextFrame]
  split <;> rfl

lemma resetPipeline_index (s : Graphics) :
    (ResetPipeline s).1.mBufferIndex = s.mBufferIndex := by
  simp only [ResetPipeline, NextFrame]
  split <;> rfl

lemma fence_mono_op (op : GfxOp) (s : Graphics) (j : Fin FRAME_BUFFER_COUNT) :
    s.maFenceValues j ≤ (applyOp op s).maFenceValues j := by
  cases op with
  | render =>
      simp only [applyOp, Render, Function.update_apply]
      split
      · next h => rw [h]; exact Nat.le_succ _
      · exact le_refl _
  | resetPipeline => rw [applyOp, resetPipeline_fence]
  | clearAllFrames => exact Nat.le_succ _
  | gpuProgress i v => exact le_refl _

lemma fence_mono_run (l : List GfxOp) (s : Graphics) (j : Fin FRAME_BUFFER_COUNT) :
    s.maFenceValues j ≤ (runOps l s).maFenceValues j := by
  induction l generalizing s with
  | nil => exact le_refl _
  | cons op l ih => exact le_trans (fence_mono_op op s j) (ih (applyOp op s))

lemma slotSignals_cons (i : Fin FRAME_BUFFER_COUNT) (op : GfxOp) (l : List GfxOp)
    (s : Graphics) :
    slotSignals i (op :: l) s =
      ((signalsOp op s).filter (fun p => decide (p.1 = i))).map Prod.snd ++
        slotSignals i l (applyOp op s) := by
  simp [slotSignals, signalsRun, List.filter_append]

lemma clear_signals_filter (s : Graphics) (i : Fin FRAME_BUFFER_COUNT) :
    ((signalsOp .clearAllFrames s).filter (fun p => decide (p.1 = i))).map Prod.snd
      = [s.maFenceValues i + 1] := by
  rcases i with ⟨iv, hi⟩
  have hi3 : iv < 3 := hi
  interval_cases iv <;> simp [signalsOp, List.filter, Fin.ext_iff]

lemma chain_slotSignals (i : Fin FRAME_BUFFER_COUNT) (l : List GfxOp) (s : Graphics) :
    List.Chain (· < ·) (s.maFenceValues i) (slotSignals i l s) := by
  induction l generalizing s with
  | nil => exact List.Chain.nil
  | cons op l ih =>
    rw [slotSignals_cons]
    cases op with
    | render =>
      by_cases h : slotOf s = i
      · have hfil : ((signalsOp .render s).filter (fun p => decide (p.1 = i))).map Prod.snd
            = [s.maFenceValues i + 1] := by
          simp [signalsOp, List.filter, h]
        have hfe : (applyOp .render s).maFenceValues i = s.maFenceValues i + 1 := by
          simp [applyOp, Render, ← h, Function.update_apply]
        rw [hfil]
        refine List.Chain.cons (Nat.lt_succ_self _) ?_
        have := ih (applyOp .render s)
        rwa [hfe] at this
      · have hfil : ((signalsOp .render s).filter (fun p => decide (p.1 = i))).map Prod.snd
            = [] := by
          simp [signalsOp, List.filter, h]
        have hfe : (applyOp .render s).maFenceValues i = s.maFenceValues i := by
          simp [applyOp, Render, Function.update_apply]
          intro he
          exact absurd he.symm h
        rw [hfil, List.nil_append]
        have := ih (applyOp .render s)
        rwa [hfe] at this
    | resetPipeline =>
      have hfe : (applyOp .resetPipeline s).maFenceValues i = s.maFenceValues i := by
        rw [applyOp, resetPipeline_fence]
      simp only [signalsOp, List.filter_nil, List.map_nil, List.nil_append]
      have := ih (applyOp .resetPipeline s)
      rwa [hfe] at this
    | clearAllFrames =>
      rw [clear_signals_filter]
      have hfe : (applyOp .clearAllFrames s).maFenceValues i = s.maFenceValues i + 1 := rfl
      refine List.Chain.cons (Nat.lt_succ_self _) ?_
      have := ih (applyOp .clearAllFrames s)
      rwa [hfe] at this
    | gpuProgress jj v =>
      have hfe : (applyOp (.gpuProgress jj v) s).maFenceValues i = s.maFenceValues i := rfl
      simp only [signalsOp, List.filter_nil, List.map_nil, List.nil_append]
      have := ih (applyOp (.gpuProgress jj v) s)
      rwa [hfe] at this

lemma index_lt_op (op : GfxOp) (s : Graphics) (h : s.mBufferIndex < FRAME_BUFFER_COUNT) :
    (applyOp op s).mBufferIndex < FRAME_BUFFER_COUNT := by
  cases op with
  | render => exact Nat.mod_lt _ (by decide)
  | resetPipeline => rw [applyOp, resetPipeline_index]; exact h
  | clearAllFrames => exact h
  | gpuProgress i v => exact h

lemma index_lt_run (l : List GfxOp) (s : Graphics) (h : s.mBufferIndex < FRAME_BUFFER_COUNT) :
    (runOps l s).mBufferIndex < FRAME_BUFFER_COUNT := by
  induction l generalizing s with
  | nil => exact h
  | cons op l ih => exact ih (applyOp op s) (index_lt_op op s h)

/-- C1: the reset-pipeline operation (ResetPipeline, via NextFrame) does not
reset the incoming slot's command allocator until the GPU's completed fence
value for that slot has reached the last value signalled for it. The
ResetEvent recorded at the instant of the allocator reset always satisfies
signalled ≤ completed, and when the slot's fence had not yet been reached
the CPU blocks: the wait returns only once the slot's completed value
equals its last signalled value. -/
theorem resetPipeline_waits_for_fence (s : Graphics) :
    (ResetPipeline s).2.signalledAtReset ≤ (ResetPipeline s).2.completedAtReset ∧
    (s.gpuCompleted (slotOf s) < s.maFenceValues (slotOf s) →
      (ResetPipeline s).1.gpuCompleted (slotOf s) = s.maFenceValues (slotOf s)) := by
  have hslot : slotOf (NextFrame s) = slotOf s := by
    simp only [NextFrame]; split <;> rfl
  have hfv : (NextFrame s).maFenceValues = s.maFenceValues := by
    simp only [NextFrame]; split <;> rfl
  by_cases h : s.gpuCompleted (slotOf s) < s.maFenceValues (slotOf s)
  · have hgc : (NextFrame s).gpuCompleted (slotOf s) = s.maFenceValues (slotOf s) := by
      simp only [NextFrame, if_pos h]
      exact Function.update_same _ _ _
    refine ⟨?_, fun _ => hgc⟩
    show (NextFrame s).maFenceValues (slotOf (NextFrame s)) ≤
      (NextFrame s).gpuCompleted (slotOf (NextFrame s))
    rw [hslot, hfv, hgc]
  · have hs : NextFrame s = s := by simp only [NextFrame, if_neg h]
    refine ⟨?_, fun hc => absurd hc h⟩
    show (NextFrame s).maFenceValues (slotOf (NextFrame s)) ≤
      (NextFrame s).gpuCompleted (slotOf (NextFrame s))
    rw [hs]
    exact Nat.le_of_not_lt h

/-- Concrete state for exercising the fence wait: every slot has last
signalled value 5 while the GPU has completed nothing. -/
def c1WitnessState : Graphics :=
  { initialGraphics with maFenceValues := fun _ => 5 }

/-- Witness for C1 at a concrete state whose incoming slot is still
outstanding: the hypothesis of the blocking clause holds and the wait
completes at the signalled value. -/
theorem resetPipeline_waits_for_fence_witness :
    c1WitnessState.gpuCompleted (slotOf c1WitnessState) <
      c1WitnessState.maFenceValues (slotOf c1WitnessState) ∧
    (ResetPipeline c1WitnessState).1.gpuCompleted (slotOf c1WitnessState) =
      c1WitnessState.maFenceValues (slotOf c1WitnessState) :=
  ⟨by decide, (resetPipeline_waits_for_fence c1WitnessState).2 (by decide)⟩

/-- C2: fence values are signalled in strictly increasing order per slot —
over any sequence of context operations, the subsequence of fence values
signalled for slot i is strictly increasing, and maFenceValues i never
decreases over the lifetime of the context. -/
theorem fence_values_strictly_increasing (l : List GfxOp) (s : Graphics)
    (i : Fin FRAME_BUFFER_COUNT) :
    s.maFenceValues i ≤ (runOps l s).maFenceValues i ∧
    List.Chain' (· < ·) (slotSignals i l s) := by
  refine ⟨fence_mono_run l s i, ?_⟩
  exact (show List.Chain' (· < ·) (s.maFenceValues i :: slotSignals i l s) from
    chain_slotSignals i l s).tail

/-- C3: the mirrored buffer index mBufferIndex stays in [0, FRAME_BUFFER_COUNT)
after every operation of the context, and the present performed inside Render
advances it by exactly 1 modulo FRAME_BUFFER_COUNT. -/
theorem buffer_index_invariant (l : List GfxOp) (s : Graphics)
    (h : s.mBufferIndex < FRAME_BUFFER_COUNT) :
    (runOps l s).mBufferIndex < FRAME_BUFFER_COUNT ∧
    (Render s).mBufferIndex = (s.mBufferIndex + 1) % FRAME_BUFFER_COUNT :=
  ⟨index_lt_run l s h, rfl⟩

/-- Witness for C3 at the freshly constructed context over a concrete
operation sequence. -/
theorem buffer_index_invariant_witness :
    (runOps [GfxOp.render, GfxOp.resetPipeline, GfxOp.render, GfxOp.render,
      GfxOp.render] initialGraphics).mBufferIndex < FRAME_BUFFER_COUNT ∧
    (Render initialGraphics).mBufferIndex =
      (initialGraphics.mBufferIndex + 1) % FRAME_BUFFER_COUNT :=
  buffer_index_invariant _ initialGraphics (by decide)

/-- C4: the shutdown drain ClearAllFrames signals-and-waits every slot: each
slot's fence value is incremented and signalled, and the drain returns only
in a state where every slot's GPU completed value has reached its signalled
fence value, so no submitted GPU work is outstanding when it returns. -/
theorem clearAllFrames_drains_every_slot (s : Graphics) (j : Fin FRAME_BUFFER_COUNT) :
    (ClearAllFrames s).maFenceValues j = s.maFenceValues j + 1 ∧
    (ClearAllFrames s).maFenceValues j ≤ (ClearAllFrames s).gpuCompleted j :=
  ⟨rfl, le_max_right _ _⟩

/-- Direct3D resource states relevant to this core. -/
inductive D3D12_RESOURCE_STATES
  | PRESENT
  | RENDER_TARGET
  | GENERIC_READ
  | COPY_DEST
  | DEPTH_WRITE
deriving DecidableEq, Repr

/-- Heap type of a committed resource. -/
inductive D3D12_HEAP_TYPE
  | UPLOAD
  | DEFAULT
deriving DecidableEq, Repr

/-- GPU resources addressed by the recorded command stream. -/
inductive ResourceId
  | backBuffer (i : Nat)
  | depthStencilBuffer
deriving DecidableEq, Repr

/-- An RGBA clear color (the float[4] argument of SetBackBufferRender;
modelled over ℚ). -/
structure Color4 where
  r : ℚ
  g : ℚ
  b : ℚ
  a : ℚ
deriving DecidableEq, Repr

/-- Commands recorded into a command list by the back-buffer helpers. -/
inductive GpuCommand
  | resourceBarrierTransition (res : ResourceId)
      (stateBefore stateAfter : D3D12_RESOURCE_STATES)
  | omSetRenderTargets (rtvHandle : Nat) (dsvHandle : Nat)
  | clearRenderTargetView (rtvHandle : Nat) (color : Color4)
  | clearDepthStencilView (dsvHandle : Nat) (depth : ℚ)
deriving DecidableEq, Repr

/-- RTV descriptor handle of back buffer i: heap base plus
i × mRTVDescSize, per the spec ("handle = heap base + index × RTV
increment size"). -/
def rtvHandleFor (g : Graphics) (i : Nat) : Nat :=
  g.rtvHeapStart + i * g.mRTVDescSize

/-- Modelled from the spec: `Graphics::SetBackBufferRender` (Graphics.cpp is
not in src/). Per spec section 4.3 it "inserts a resource-state transition
(present → render-target) for the current back buffer into the supplied
command list, then binds it and the depth/stencil view as active render
targets, and clears the back buffer to the caller-supplied color and the
depth buffer to" SCREEN_DEPTH. -/
def SetBackBufferRender (g : Graphics) (cmdList : List GpuCommand)
    (clearColor : Color4) : List GpuCommand :=
  cmdList ++
    [ .resourceBarrierTransition (.backBuffer (g.mBufferIndex % FRAME_BUFFER_COUNT))
        .PRESENT .RENDER_TARGET,
      .omSetRenderTargets (rtvHandleFor g (g.mBufferIndex % FRAME_BUFFER_COUNT))
        g.dsvHandle,
      .clearRenderTargetView (rtvHandleFor g (g.mBufferIndex % FRAME_BUFFER_COUNT))
        clearColor,
      .clearDepthStencilView g.dsvHandle SCREEN_DEPTH ]

/-- Modelled from the spec: `Graphics::SetBackBufferPresent` (Graphics.cpp is
not in src/). Per spec section 4.3 it "inserts the inverse transition
(render-target → present)". -/
def SetBackBufferPresent (g : Graphics) (cmdList : List GpuCommand) :
    List GpuCommand :=
  cmdList ++
    [ .resourceBarrierTransition (.backBuffer (g.mBufferIndex % FRAME_BUFFER_COUNT))
        .RENDER_TARGET .PRESENT ]

/-- The exception type of Graphics.h lines 53-56: a runtime-error subclass
carrying a message string; the single exception kind used for all fatal
graphics errors. -/
structure GFX_Exception where
  msg : String
deriving DecidableEq, Repr

/-- Outcome of each stage of context construction; the environment the
constructor runs against (which hardware steps succeed). -/
structure InitEnv where
  adapterCompatible : Bool
  deviceCreationOk : Bool
  swapChainCreationOk : Bool
  descriptorHeapCreationOk : Bool
deriving DecidableEq, Repr

/-- Observable result of a successful construction: how many back buffers
exist, the sizes of the RTV and DSV heaps, the feature level the device was
created at, and the synchronization state. -/
structure InitResult where
  numBackBuffers : Nat
  rtvHeapNumHandles : Nat
  dsvHeapNumHandles : Nat
  featureLevel : Nat
  gfx : Graphics

/-- Modelled from the spec: the `Graphics::Graphics` constructor
(Graphics.cpp is not in src/). Per spec sections 4.1, 4.3 and 7 it
enumerates adapters, creates the device at the minimum feature level,
creates the swap chain with FRAME_BUFFER_COUNT buffers, an RTV heap sized
for FRAME_BUFFER_COUNT handles and a DSV heap sized for one handle; every
fatal initialization failure surfaces as a GFX_Exception with a descriptive
message and aborts construction, with no retry and no software-adapter
fallback. -/
def GraphicsConstructor (height width : Nat) (win : Nat) (fullscreen : Bool)
    (env : InitEnv) : Except GFX_Exception InitResult :=
  if env.adapterCompatible = false then
    .error ⟨"No DirectX 12 compatible adapter found."⟩
  else if env.deviceCreationOk = false then
    .error ⟨"Failed to create device."⟩
  else if env.swapChainCreationOk = false then
    .error ⟨"Failed to create swap chain."⟩
  else if env.descriptorHeapCreationOk = false then
    .error ⟨"Failed to create descriptor heap."⟩
  else
    .ok
      { numBackBuffers := FRAME_BUFFER_COUNT
        rtvHeapNumHandles := FRAME_BUFFER_COUNT
        dsvHeapNumHandles := 1
        featureLevel := FEATURE_LEVEL
        gfx := initialGraphics }

/-- An environment in which every hardware creation step succeeds. -/
def allStagesOk : InitEnv := ⟨true, true, true, true⟩

/-- Description of a buffer resource (width in bytes; the other Direct3D
description fields do not affect the claims). -/
structure ResourceDesc where
  width : Nat
deriving DecidableEq, Repr

/-- A committed GPU resource: its description, backing heap type and the
initial resource state it was created in. -/
structure GpuResource where
  desc : ResourceDesc
  heapType : D3D12_HEAP_TYPE
  state : D3D12_RESOURCE_STATES
deriving DecidableEq, Repr

/-- Modelled from the spec: `Graphics::CreateUploadBuffer` (Graphics.cpp is
not in src/). Per spec section 4.5, an upload buffer is a "CPU-writable,
GPU-readable staging resource, always created in a generic-read state ready
for mapping". -/
def CreateUploadBuffer (texDesc : ResourceDesc) : GpuResource :=
  { desc := texDesc, heapType := .UPLOAD, state := .GENERIC_READ }

/-- Modelled from the spec: `Graphics::CreateDefaultBuffer` (Graphics.cpp is
not in src/). Per spec section 4.5, a default buffer is a "GPU-local
resource pre-configured as a copy destination". -/
def CreateDefaultBuffer (texDesc : ResourceDesc) : GpuResource :=
  { desc := texDesc, heapType := .DEFAULT, state := .COPY_DEST }

/-- Entry point passed to the platform shader compiler for each stage.
Modelled from the spec: CompileShader "invokes the platform shader compiler
with a stage-appropriate entry point" (the concrete names are not in src/;
one distinct entry point per stage). -/
def entryPointFor : ShaderType → String
  | .PIXEL_SHADER => "PSMain"
  | .VERTEX_SHADER => "VSMain"
  | .GEOMETRY_SHADER => "GSMain"
  | .HULL_SHADER => "HSMain"
  | .DOMAIN_SHADER => "DSMain"

/-- Target profile passed to the platform shader compiler for each stage.
Modelled from the spec: CompileShader uses a stage-appropriate "target
profile" (one distinct profile per stage). -/
def targetFor : ShaderType → String
  | .PIXEL_SHADER => "ps_5_0"
  | .VERTEX_SHADER => "vs_5_0"
  | .GEOMETRY_SHADER => "gs_5_0"
  | .HULL_SHADER => "hs_5_0"
  | .DOMAIN_SHADER => "ds_5_0"

/-- The D3D12_SHADER_BYTECODE out-parameter of CompileShader: a pointer to
the compiled bytecode plus its length. -/
structure D3D12_SHADER_BYTECODE where
  pShaderBytecode : List Nat
  BytecodeLength : Nat
deriving DecidableEq, Repr

/-- What the file system and compiler would do with a given shader source
file: whether the file exists, whether it compiles, the compiler's
diagnostic output on failure, and the bytecode on success. -/
structure ShaderSource where
  fileExists : Bool
  compilesOk : Bool
  diagnostics : String
  code : List Nat
deriving DecidableEq, Repr

/-- The invocation CompileShader makes of the platform compiler. -/
structure CompilerInvocation where
  filename : String
  entryPoint : String
  target : String
deriving DecidableEq, Repr

/-- Modelled from the spec: `Graphics::CompileShader` (Graphics.cpp is not
in src/). Per spec section 4.6 it "invokes the platform shader compiler
with a stage-appropriate entry point/target profile and returns bytecode
plus size. Compilation failure (syntax error, missing file) is fatal for
that shader's creation path and must propagate a descriptive error
including the compiler's diagnostic output — silently falling back to a
default shader is explicitly disallowed." The Graphics state is returned
unchanged: a failed compile leaves the context otherwise usable. -/
def CompileShader (g : Graphics) (filename : String) (src : ShaderSource)
    (st : ShaderType) :
    Graphics × CompilerInvocation × Except String D3D12_SHADER_BYTECODE :=
  (g, ⟨filename, entryPointFor st, targetFor st⟩,
    if src.fileExists && src.compilesOk then
      .ok ⟨src.code, src.code.length⟩
    else
      .error ("Failed to compile shader " ++ filename ++ ": " ++ src.diagnostics))

/-- C5: constructing the context with height 720, width 1280, a window
handle and fullscreen false (against hardware where every creation step
succeeds) yields exactly FRAME_BUFFER_COUNT = 3 back buffers, an RTV heap
with 3 handles, a DSV heap with 1 handle, and a device at feature level at
least 11.0 (0xb000). -/
theorem constructor_creates_triple_buffered_context :
    ∃ r : InitResult,
      GraphicsConstructor 720 1280 0 false allStagesOk = .ok r ∧
      r.numBackBuffers = 3 ∧
      r.rtvHeapNumHandles = 3 ∧
      r.dsvHeapNumHandles = 1 ∧
      D3D_FEATURE_LEVEL_11_0 ≤ r.featureLevel := by
  refine ⟨_, rfl, rfl, rfl, rfl, le_refl _⟩

/-- C6: SetBackBufferRender, for any command list and caller-supplied clear
color, appends exactly these records: a present→render-target transition
for the current back buffer, the binding of that back buffer's RTV together
with the depth/stencil view, a clear of the back buffer to the supplied
color, and a clear of the depth buffer to SCREEN_DEPTH, which equals
1000. -/
theorem setBackBufferRender_records (g : Graphics) (cmdList : List GpuCommand)
    (c : Color4) :
    SetBackBufferRender g cmdList c =
      cmdList ++
        [ GpuCommand.resourceBarrierTransition
            (ResourceId.backBuffer (g.mBufferIndex % FRAME_BUFFER_COUNT))
            D3D12_RESOURCE_STATES.PRESENT D3D12_RESOURCE_STATES.RENDER_TARGET,
          GpuCommand.omSetRenderTargets
            (rtvHandleFor g (g.mBufferIndex % FRAME_BUFFER_COUNT)) g.dsvHandle,
          GpuCommand.clearRenderTargetView
            (rtvHandleFor g (g.mBufferIndex % FRAME_BUFFER_COUNT)) c,
          GpuCommand.clearDepthStencilView g.dsvHandle SCREEN_DEPTH ] ∧
    SCREEN_DEPTH = 1000 :=
  ⟨rfl, rfl⟩

/-- C7: for every resource description, CreateUploadBuffer returns a
resource created on an upload heap in the generic-read state, and
CreateDefaultBuffer returns a resource created on a default heap in the
copy-destination state. -/
theorem buffer_creation_states (texDesc : ResourceDesc) :
    (CreateUploadBuffer texDesc).state = D3D12_RESOURCE_STATES.GENERIC_READ ∧
    (CreateUploadBuffer texDesc).heapType = D3D12_HEAP_TYPE.UPLOAD ∧
    (CreateDefaultBuffer texDesc).state = D3D12_RESOURCE_STATES.COPY_DEST ∧
    (CreateDefaultBuffer texDesc).heapType = D3D12_HEAP_TYPE.DEFAULT :=
  ⟨rfl, rfl, rfl, rfl⟩

/-- C8: every fatal initialization failure (no compatible adapter, device
creation failure, swap-chain creation failure, descriptor-heap creation
failure) surfaces as the single exception kind GFX_Exception carrying a
nonempty descriptive message, and construction aborts with no InitResult
for the caller; when no compatible adapter exists the constructor fails
with that error immediately, regardless of what any later stage would have
done — no retry and no software-adapter fallback. -/
theorem construction_failures_raise_gfx_exception (height width win : Nat)
    (fullscreen : Bool) (env : InitEnv) :
    (env.adapterCompatible = false ∨ env.deviceCreationOk = false ∨
        env.swapChainCreationOk = false ∨ env.descriptorHeapCreationOk = false →
      ∃ e : GFX_Exception,
        GraphicsConstructor height width win fullscreen env = .error e ∧
        e.msg ≠ "") ∧
    (env.adapterCompatible = false →
      GraphicsConstructor height width win fullscreen env =
        .error ⟨"No DirectX 12 compatible adapter found."⟩) := by
  rcases env with ⟨a, d, sc, dh⟩
  cases a <;> cases d <;> cases sc <;> cases dh <;> simp [GraphicsConstructor]

/-- Witness for C8: in an environment whose later stages would all succeed
but with no compatible adapter, construction fails with the adapter
exception carrying a nonempty message. -/
theorem construction_failures_raise_gfx_exception_witness :
    (∃ e : GFX_Exception,
      GraphicsConstructor 720 1280 0 false ⟨false, true, true, true⟩ = .error e ∧
      e.msg ≠ "") ∧
    GraphicsConstructor 720 1280 0 false ⟨false, true, true, true⟩ =
      .error ⟨"No DirectX 12 compatible adapter found."⟩ :=
  ⟨(construction_failures_raise_gfx_exception 720 1280 0 false
      ⟨false, true, true, true⟩).1 (Or.inl rfl),
   (construction_failures_raise_gfx_exception 720 1280 0 false
      ⟨false, true, true, true⟩).2 rfl⟩

/-- C9: CompileShader invokes the compiler on the given file with the
stage-appropriate entry point and target profile (distinct per stage); on
compilation failure (missing file or failed compile) it propagates a
descriptive error that carries the compiler's diagnostics and returns no
bytecode — it never falls back to a default shader — and the Graphics
context is returned unchanged, so it remains otherwise usable; on success
it returns the bytecode together with its size. -/
theorem compileShader_behaviour (g : Graphics) (filename : String)
    (src : ShaderSource) (st : ShaderType) :
    (CompileShader g filename src st).1 = g ∧
    (CompileShader g filename src st).2.1 =
      ⟨filename, entryPointFor st, targetFor st⟩ ∧
    (∀ st2, targetFor st = targetFor st2 → st = st2) ∧
    (src.fileExists = false ∨ src.compilesOk = false →
      (CompileShader g filename src st).2.2 =
        .error ("Failed to compile shader " ++ filename ++ ": " ++
          src.diagnostics)) ∧
    (src.fileExists = true ∧ src.compilesOk = true →
      (CompileShader g filename src st).2.2 =
        .ok ⟨src.code, src.code.length⟩) := by
  refine ⟨rfl, rfl, ?_, ?_, ?_⟩
  · intro st2 h
    cases st <;> cases st2 <;> first | rfl | exact absurd h (by decide)
  · intro h
    have hb : (src.fileExists && src.compilesOk) = false := by
      rcases h with h | h <;> simp [h]
    simp [CompileShader, hb]
  · rintro ⟨h1, h2⟩
    simp [CompileShader, h1, h2]

/-- Witness for C9 at a concrete failed compile of a missing file: the
error carries the diagnostics, no bytecode is produced, and for a concrete
successful compile the bytecode and its size come back. -/
theorem compileShader_behaviour_witness :
    (CompileShader initialGraphics "missing.hlsl"
        ⟨false, false, "file not found", []⟩ ShaderType.VERTEX_SHADER).2.2 =
      .error ("Failed to compile shader missing.hlsl: file not found") ∧
    (CompileShader initialGraphics "terrain.hlsl"
        ⟨true, true, "", [7, 7, 7]⟩ ShaderType.PIXEL_SHADER).2.2 =
      .ok ⟨[7, 7, 7], 3⟩ ∧
    ShaderType.PIXEL_SHADER = ShaderType.PIXEL_SHADER :=
  ⟨(compileShader_behaviour initialGraphics "missing.hlsl"
      ⟨false, false, "file not found", []⟩ ShaderType.VERTEX_SHADER).2.2.2.1
      (Or.inl rfl),
   (compileShader_behaviour initialGraphics "terrain.hlsl"
      ⟨true, true, "", [7, 7, 7]⟩ ShaderType.PIXEL_SHADER).2.2.2.2 ⟨rfl, rfl⟩,
   (compileShader_behaviour initialGraphics "terrain.hlsl"
      ⟨true, true, "", [7, 7, 7]⟩ ShaderType.PIXEL_SHADER).2.2.1
      ShaderType.PIXEL_SHADER rfl⟩

/-- DirectXMath XMFLOAT4: four consecutive 4-byte floats (modelled over ℚ). -/
structure XMFLOAT4 where
  x : ℚ
  y : ℚ
  z : ℚ
  w : ℚ
deriving DecidableEq, Repr

/-- DirectXMath XMFLOAT3: three consecutive 4-byte floats (modelled over ℚ). -/
structure XMFLOAT3 where
  x : ℚ
  y : ℚ
  z : ℚ
deriving DecidableEq, Repr

/-- The LightSource struct of Light.h lines 8-19, fields in declaration
order. It is a standard-layout struct of 24 consecutive 4-byte floats (no
padding: every member is 4-byte aligned), 96 bytes in total. -/
structure LightSource where
  pos : XMFLOAT4
  intensityAmbient : XMFLOAT4
  intensityDiffuse : XMFLOAT4
  intensitySpecular : XMFLOAT4
  attenuation : XMFLOAT3
  range : ℚ
  direction : XMFLOAT3
  spotlightConeExponent : ℚ
deriving DecidableEq, Repr

/-- The 24 floats of a LightSource in memory order: float slot k occupies
bytes 4k .. 4k+3 of the object. -/
def LightSource.floats (l : LightSource) : List ℚ :=
  [l.pos.x, l.pos.y, l.pos.z, l.pos.w,
   l.intensityAmbient.x, l.intensityAmbient.y, l.intensityAmbient.z,
   l.intensityAmbient.w,
   l.intensityDiffuse.x, l.intensityDiffuse.y, l.intensityDiffuse.z,
   l.intensityDiffuse.w,
   l.intensitySpecular.x, l.intensitySpecular.y, l.intensitySpecular.z,
   l.intensitySpecular.w,
   l.attenuation.x, l.attenuation.y, l.attenuation.z,
   l.range,
   l.direction.x, l.direction.y, l.direction.z,
   l.spotlightConeExponent]

/-- Rebuild a LightSource from its float slots. -/
def LightSource.ofFloats (f : Nat → ℚ) : LightSource :=
  { pos := ⟨f 0, f 1, f 2, f 3⟩
    intensityAmbient := ⟨f 4, f 5, f 6, f 7⟩
    intensityDiffuse := ⟨f 8, f 9, f 10, f 11⟩
    intensitySpecular := ⟨f 12, f 13, f 14, f 15⟩
    attenuation := ⟨f 16, f 17, f 18⟩
    range := f 19
    direction := ⟨f 20, f 21, f 22⟩
    spotlightConeExponent := f 23 }

/-- The default constructor of Light.h line 9:
`LightSource() \x7b ZeroMemory(this, sizeof(this)); \x7d`.
`this` has type `LightSource*`, so `sizeof(this)` is the size of a pointer —
8 bytes on a 64-bit build, 4 on a 32-bit build — not
`sizeof(LightSource)` = 96 bytes. ZeroMemory therefore clears only the first
`ptrSize` bytes of the object (float slot k is cleared iff 4(k+1) ≤ ptrSize);
every later float keeps its indeterminate pre-constructor contents,
modelled here by `pre`. -/
def LightSource.defaultCtor (ptrSize : Nat) (pre : LightSource) : LightSource :=
  LightSource.ofFloats
    (fun k => if (k + 1) * 4 ≤ ptrSize then 0 else pre.floats.getD k 0)

/-- The Light class of Light.h lines 21-32. -/
structure Light where
  mlsLightData : LightSource
deriving DecidableEq, Repr

/-- The default constructor `Light() \x7b\x7d` of Light.h line 23: its only
member is default-constructed, running LightSource's constructor over
whatever bytes the storage held. -/
def Light.defaultCtor (ptrSize : Nat) (pre : LightSource) : Light :=
  ⟨LightSource.defaultCtor ptrSize pre⟩

/-- Light::GetLight of Light.h line 27: returns mlsLightData. -/
def Light.GetLight (l : Light) : LightSource :=
  l.mlsLightData

/-- A LightSource whose every float is 1 — one possible content of the
uninitialized storage a Light is constructed over. -/
def preGarbage : LightSource :=
  { pos := ⟨1, 1, 1, 1⟩
    intensityAmbient := ⟨1, 1, 1, 1⟩
    intensityDiffuse := ⟨1, 1, 1, 1⟩
    intensitySpecular := ⟨1, 1, 1, 1⟩
    attenuation := ⟨1, 1, 1⟩
    range := 1
    direction := ⟨1, 1, 1⟩
    spotlightConeExponent := 1 }

/-- C10: the intended behaviour — every field of a default-constructed
LightSource is zero — fails on the code. `ZeroMemory(this, sizeof(this))`
zeroes only `sizeof(LightSource*)` bytes: on a 64-bit build only pos.x and
pos.y (the first 8 bytes) are cleared, so when the storage held nonzero
garbage, Light::GetLight on a default-constructed Light returns a record
whose pos.z, range and spotlightConeExponent (among others) are nonzero —
and on a 32-bit build even pos.y survives. -/
theorem lightSource_zeroMemory_sizeof_bug :
    ((Light.defaultCtor 8 preGarbage).GetLight).pos.x = 0 ∧
    ((Light.defaultCtor 8 preGarbage).GetLight).pos.y = 0 ∧
    ((Light.defaultCtor 8 preGarbage).GetLight).pos.z ≠ 0 ∧
    ((Light.defaultCtor 8 preGarbage).GetLight).range ≠ 0 ∧
    ((Light.defaultCtor 8 preGarbage).GetLight).spotlightConeExponent ≠ 0 ∧
    ((Light.defaultCtor 4 preGarbage).GetLight).pos.y ≠ 0 := by
  refine ⟨rfl, rfl, ?_, ?_, ?_, ?_⟩ <;> decide

end RenderTerrain
